import Mathlib

/-
Shallow embedding of the urlreadseeker package (src/urlreadseeker.go).

Modelling decisions:
* Go `int`/`int64` values (offsets, sizes, status codes, whence) are `Int`;
  overflow of 64-bit arithmetic is out of scope of the claims.
* Byte buffers are `List Nat` (byte values are never computed with, so the
  0..255 range constraint is irrelevant to the claims).
* The HTTP client capability is an oracle (`HttpClient`): one HEAD answer for
  the reader's URL and a function from the requested inclusive byte range of a
  ranged GET to its outcome.  `newRequestOk` models whether `http.NewRequest`
  succeeds for the reader's URL (it depends only on the URL in Go).
* A Go runtime panic (out-of-range slice index) is modelled as the result
  `none`; every normal return `(n, err)` together with the final contents of
  the caller's buffer and the list of network calls made is `some`.
* `read` additionally records the list of ranged-GET calls it performed
  (`calls`), so "no network call" is expressible as `calls = []`.
-/

namespace URS

/-- Outcome of one ranged GET round trip: `doError` is a `client.Do` failure,
`resp status body?` is a response; `body? = none` means reading the response
body failed. -/
inductive FetchOutcome where
  | doError : FetchOutcome
  | resp (status : Int) (body? : Option (List Nat)) : FetchOutcome
deriving DecidableEq

/-- Outcome of the HEAD metadata probe: `doError` is a `client.Do` failure,
`resp v` is a response whose Content-Length header parses to `v`
(`v = none` when the header is absent or unparsable). -/
inductive HeadOutcome where
  | doError : HeadOutcome
  | resp (contentLength : Option Int) : HeadOutcome
deriving DecidableEq

/-- The external HTTP client capability, fixed to one reader's URL. -/
structure HttpClient where
  newRequestOk : Bool
  headResp : HeadOutcome
  fetch : Int → Int → FetchOutcome

/-- Error taxonomy of the package: `eof` is `io.EOF`, `reqErr` an
`http.NewRequest` failure, `transportErr` a `client.Do` failure, `badStatus`
the non-2xx error, `bodyErr` an `ioutil.ReadAll` failure, `metadataErr` a
Content-Length parse failure, `unsupported` the unknown-whence Seek error. -/
inductive Err where
  | eof : Err
  | reqErr : Err
  | transportErr : Err
  | badStatus (code : Int) : Err
  | bodyErr : Err
  | metadataErr : Err
  | unsupported (whence : Int) : Err
deriving DecidableEq

/-- The `Reader` struct: `url`, `offset` (the cursor), `contentSize`, `head`
(the prefetch buffer).  The `client` field is passed separately as the
`HttpClient` oracle. -/
structure Reader where
  url : String
  offset : Int
  contentSize : Int
  head : List Nat
deriving DecidableEq

/-- Result of one `read`: the returned byte count `n`, the returned error,
the final contents of the caller's buffer, and the ranged-GET calls made. -/
structure ReadRet where
  n : Nat
  err : Option Err
  buf : List Nat
  calls : List (Int × Int)
deriving DecidableEq

/-- Go `copy(dst, src)`: overwrites the first `min |dst| |src|` entries of
`dst` with those of `src`, leaving the rest of `dst` unchanged. -/
def goCopy (dst src : List Nat) : List Nat :=
  src.take dst.length ++ dst.drop src.length

/-- The shared positional fetch `(*Reader).read(buf, offset)`.  Mirrors the
source line by line (writing `end := offset + int64(len(buf))` inline):
prefetch-hit check (`len(r.head) > end`, with the Go slice
`r.head[offset:end]` panicking when `offset < 0`), end-of-stream check,
request construction, `client.Do`, status check, body read, `copy`, and the
zero-length-buffer EOF check, in that order. -/
def read (r : Reader) (buf : List Nat) (offset : Int) (c : HttpClient) :
    Option ReadRet :=
  if (r.head.length : Int) > offset + buf.length then
    if offset < 0 then
      none
    else
      some ⟨buf.length, none,
        goCopy buf
          ((r.head.drop offset.toNat).take ((offset + buf.length) - offset).toNat),
        []⟩
  else if offset ≥ r.contentSize then
    some ⟨0, some .eof, buf, []⟩
  else if c.newRequestOk then
    match c.fetch offset (offset + buf.length - 1) with
    | .doError =>
      some ⟨0, some .transportErr, buf, [(offset, offset + buf.length - 1)]⟩
    | .resp status body? =>
      if Int.tdiv status 100 ≠ 2 then
        some ⟨0, some (.badStatus status), buf, [(offset, offset + buf.length - 1)]⟩
      else
        match body? with
        | none => some ⟨0, some .bodyErr, buf, [(offset, offset + buf.length - 1)]⟩
        | some body =>
          if buf.length = 0 then
            some ⟨0, some .eof, goCopy buf body, [(offset, offset + buf.length - 1)]⟩
          else
            some ⟨buf.length, none, goCopy buf body, [(offset, offset + buf.length - 1)]⟩
  else
    some ⟨0, some .reqErr, buf, []⟩

/-- The `(*Reader).Read` method: positional fetch at the cursor, then
`r.offset += int64(n)`. -/
def Read (r : Reader) (buf : List Nat) (c : HttpClient) :
    Option (ReadRet × Reader) :=
  match read r buf r.offset c with
  | none => none
  | some ret => some (ret, { r with offset := r.offset + (ret.n : Int) })

/-- The `(*Reader).ReadAt` method: positional fetch at the given offset;
the reader is untouched. -/
def ReadAt (r : Reader) (buf : List Nat) (offset : Int) (c : HttpClient) :
    Option (ReadRet × Reader) :=
  match read r buf offset c with
  | none => none
  | some ret => some (ret, r)

/-- Go `io.SeekStart`. -/
def SeekStart : Int := 0

/-- Go `io.SeekCurrent`. -/
def SeekCurrent : Int := 1

/-- Go `io.SeekEnd`. -/
def SeekEnd : Int := 2

/-- The `(*Reader).Seek` method.  Note its type: it takes no `HttpClient`,
so it can perform no network I/O. -/
def Seek (r : Reader) (offset : Int) (whence : Int) :
    (Int × Option Err) × Reader :=
  if whence = SeekStart then
    ((offset, none), { r with offset := offset })
  else if whence = SeekCurrent then
    ((r.offset + offset, none), { r with offset := r.offset + offset })
  else if whence = SeekEnd then
    ((r.contentSize - offset, none), { r with offset := r.contentSize - offset })
  else
    ((0, some (.unsupported whence)), r)

/-- The `(*Reader).size` helper: HEAD probe, then Content-Length parse. -/
def size (c : HttpClient) : Except Err Int :=
  if c.newRequestOk then
    match c.headResp with
    | .doError => .error .transportErr
    | .resp none => .error .metadataErr
    | .resp (some v) => .ok v
  else
    .error .reqErr

/-- The constructor `NewReader(url, prefetch)`.  On a metadata-probe failure
the error is returned and no reader is produced.  Otherwise, when
`prefetch > 0`, a `prefetch`-byte zero buffer is read at offset 0 via
`ReadAt`; on a read error the head is reset to empty (the error is absorbed),
and the Go guard `if len(head) > total { head = head[:total] }` is mirrored
verbatim. -/
def NewReader (url : String) (prefetch : Int) (c : HttpClient) :
    Option (Except Err Reader) :=
  match size c with
  | .error e => some (.error e)
  | .ok sz =>
    let r0 : Reader := { url := url, offset := 0, contentSize := sz, head := [] }
    if prefetch > 0 then
      match ReadAt r0 (List.replicate prefetch.toNat 0) 0 c with
      | none => none
      | some (ret, _) =>
        let h1 := if ret.err.isSome then [] else ret.buf
        let h2 := if h1.length > ret.n then h1.take ret.n else h1
        some (.ok { r0 with head := h2 })
    else
      some (.ok r0)

/-- A client whose ranged GETs always succeed with an empty 200 body. -/
def cAny : HttpClient := ⟨true, .resp (some 2), fun _ _ => .resp 200 (some [])⟩

/-- A reader with a 2-byte prefetch buffer over a 2-byte resource. -/
def rC1 : Reader := ⟨"u", 0, 2, [0, 0]⟩

/-- A client for a 5-byte resource whose ranged GETs answer 206 with the
full 5-byte body (a server truncating an over-long range request). -/
def cBug : HttpClient := ⟨true, .resp (some 5), fun _ _ => .resp 206 (some [1, 2, 3, 4, 5])⟩

/-- The reader `NewReader "u" 100 cBug` produces: a 100-byte prefetch buffer
(5 real bytes, 95 padding zeros) over a 5-byte resource. -/
def rBug : Reader := ⟨"u", 0, 5, [1, 2, 3, 4, 5] ++ List.replicate 95 0⟩

/-- A reader over an empty resource. -/
def rW : Reader := ⟨"u", 0, 0, []⟩

/-- The result of reading one byte from `rW`: immediate EOF. -/
def retW : ReadRet := ⟨0, some .eof, [0], []⟩

/-- A client whose HEAD probe reports length 10 but whose ranged GETs all
fail at the transport level. -/
def c7c : HttpClient := ⟨true, .resp (some 10), fun _ _ => .doError⟩

/-- The reader `NewReader "u" 4 c7c` produces: prefetch failed, head empty. -/
def r7 : Reader := ⟨"u", 0, 10, []⟩

/-- The result of the failed 4-byte prefetch read against `c7c`. -/
def ret7 : ReadRet := ⟨0, some .transportErr, List.replicate 4 0, [(0, 3)]⟩

/-- A fresh reader over a 10-byte resource with no prefetch buffer. -/
def r9 : Reader := ⟨"u", 0, 10, []⟩

/-- A reader over a 10-byte resource whose cursor was sought to -1. -/
def r10 : Reader := ⟨"u", -1, 10, []⟩

/-- A client answering every ranged GET with a 2-byte 200 body (as real
servers do when they ignore a malformed Range header). -/
def c10c : HttpClient := ⟨true, .resp (some 10), fun _ _ => .resp 200 (some [5, 6])⟩

/-- A reader with a 3-byte prefetch buffer whose cursor was sought to -1. -/
def r10p : Reader := ⟨"u", -1, 10, [0, 0, 0]⟩

/-- Go `copy(dst, src)` with `|src| = |dst|` replaces `dst` entirely. -/
theorem goCopy_eq_of_length_eq (dst src : List Nat) (h : src.length = dst.length) :
    goCopy dst src = src := by
  unfold goCopy
  rw [List.take_of_length_le (le_of_eq h), h, List.drop_length, List.append_nil]

/-- Go `copy(dst, src)` leaves the entries of `dst` past `|src|` unchanged. -/
theorem goCopy_drop (dst src : List Nat) :
    (goCopy dst src).drop src.length = dst.drop src.length := by
  unfold goCopy
  rw [List.drop_append_eq_append_drop]
  rcases le_or_lt src.length dst.length with h | h
  · rw [List.take_of_length_le h, List.drop_length, Nat.sub_self,
      List.drop_zero, List.nil_append]
  · rw [List.drop_eq_nil_of_le (by rw [List.length_take]; omega),
      List.drop_eq_nil_of_le (le_of_lt h), List.drop_nil, List.append_nil]

/-- Branch lemma: a prefetch hit at a nonnegative offset returns the prefetch
slice, `len(buf)` bytes, no error, and no network call. -/
theorem read_hit (r : Reader) (buf : List Nat) (offset : Int) (c : HttpClient)
    (h0 : 0 ≤ offset) (hcov : offset + (buf.length : Int) < r.head.length) :
    read r buf offset c =
      some ⟨buf.length, none, (r.head.drop offset.toNat).take buf.length, []⟩ := by
  unfold read
  rw [if_pos hcov, if_neg (not_lt.mpr h0)]
  have harg : ((offset + (buf.length : Int)) - offset).toNat = buf.length := by omega
  rw [harg, goCopy_eq_of_length_eq]
  rw [List.length_take, List.length_drop]
  omega

/-- Branch lemma: a prefetch hit at a negative offset panics (out-of-range
slice index in Go). -/
theorem read_panic (r : Reader) (buf : List Nat) (offset : Int) (c : HttpClient)
    (hneg : offset < 0) (hcov : offset + (buf.length : Int) < r.head.length) :
    read r buf offset c = none := by
  unfold read
  rw [if_pos hcov, if_pos hneg]

/-- Branch lemma: on a prefetch miss, an offset at or past `contentSize`
returns `io.EOF` with zero bytes, the buffer untouched, and no network call. -/
theorem read_eof (r : Reader) (buf : List Nat) (offset : Int) (c : HttpClient)
    (hmiss : (r.head.length : Int) ≤ offset + buf.length)
    (hend : r.contentSize ≤ offset) :
    read r buf offset c = some ⟨0, some .eof, buf, []⟩ := by
  unfold read
  rw [if_neg (not_lt.mpr hmiss), if_pos hend]

/-- Branch lemma: a prefetch miss below `contentSize` with a successful 2xx
ranged GET copies the body and returns `len(buf)` with no error (when the
buffer is non-empty), recording the one network call. -/
theorem read_success (r : Reader) (buf : List Nat) (offset : Int)
    (c : HttpClient) (s : Int) (body : List Nat)
    (hmiss : (r.head.length : Int) ≤ offset + buf.length)
    (hlt : offset < r.contentSize)
    (hok : c.newRequestOk = true)
    (hfetch : c.fetch offset (offset + buf.length - 1) = .resp s (some body))
    (hst : Int.tdiv s 100 = 2)
    (hbuf : buf ≠ []) :
    read r buf offset c =
      some ⟨buf.length, none, goCopy buf body,
        [(offset, offset + buf.length - 1)]⟩ := by
  unfold read
  rw [if_neg (not_lt.mpr hmiss), if_neg (not_le.mpr hlt), if_pos hok, hfetch]
  dsimp only
  rw [if_neg (not_not_intro hst),
    if_neg (fun h => hbuf (List.length_eq_zero.mp h))]

/-- Branch lemma: same as `read_success` but for the zero-length buffer,
where the code reports `io.EOF` after the network round trip. -/
theorem read_success_nil (r : Reader) (offset : Int)
    (c : HttpClient) (s : Int) (body : List Nat)
    (hmiss : (r.head.length : Int) ≤ offset)
    (hlt : offset < r.contentSize)
    (hok : c.newRequestOk = true)
    (hfetch : c.fetch offset (offset - 1) = .resp s (some body))
    (hst : Int.tdiv s 100 = 2) :
    read r [] offset c = some ⟨0, some .eof, [], [(offset, offset - 1)]⟩ := by
  unfold read
  rw [if_neg (by simp only [List.length_nil]; omega :
        ¬ (r.head.length : Int) > offset + (([] : List Nat).length : Int)),
    if_neg (not_le.mpr hlt), if_pos hok]
  have harg : offset + (([] : List Nat).length : Int) - 1 = offset - 1 := by
    simp only [List.length_nil]; omega
  rw [harg, hfetch]
  dsimp only
  rw [if_neg (not_not_intro hst)]
  simp [goCopy]

/-- Branch lemma: `read` can only panic at a negative offset. -/
theorem read_ne_none_of_nonneg (r : Reader) (buf : List Nat) (offset : Int)
    (c : HttpClient) (h0 : 0 ≤ offset) : read r buf offset c ≠ none := by
  unfold read
  split
  · rw [if_neg (not_lt.mpr h0)]
    exact Option.some_ne_none _
  · split
    · exact Option.some_ne_none _
    · split
      · split
        · exact Option.some_ne_none _
        · split
          · exact Option.some_ne_none _
          · split
            · exact Option.some_ne_none _
            · split
              · exact Option.some_ne_none _
              · exact Option.some_ne_none _
      · exact Option.some_ne_none _

/-- Branch lemma: on a prefetch miss below `contentSize`, a request whose
`http.NewRequest` fails returns that error with no network call. -/
theorem read_reqErr (r : Reader) (buf : List Nat) (offset : Int) (c : HttpClient)
    (hmiss : (r.head.length : Int) ≤ offset + buf.length)
    (hlt : offset < r.contentSize)
    (hok : c.newRequestOk = false) :
    read r buf offset c = some ⟨0, some .reqErr, buf, []⟩ := by
  unfold read
  rw [if_neg (not_lt.mpr hmiss), if_neg (not_le.mpr hlt), if_neg (by simp [hok])]

/-- Branch lemma: on a prefetch miss below `contentSize`, a transport-level
`client.Do` failure propagates with zero bytes read. -/
theorem read_doError (r : Reader) (buf : List Nat) (offset : Int) (c : HttpClient)
    (hmiss : (r.head.length : Int) ≤ offset + buf.length)
    (hlt : offset < r.contentSize)
    (hok : c.newRequestOk = true)
    (hf : c.fetch offset (offset + buf.length - 1) = .doError) :
    read r buf offset c =
      some ⟨0, some .transportErr, buf, [(offset, offset + buf.length - 1)]⟩ := by
  unfold read
  rw [if_neg (not_lt.mpr hmiss), if_neg (not_le.mpr hlt), if_pos hok, hf]

/-- Branch lemma: a non-2xx response status fails with the status-code error
and zero bytes read. -/
theorem read_badStatus (r : Reader) (buf : List Nat) (offset : Int)
    (c : HttpClient) (s : Int) (body? : Option (List Nat))
    (hmiss : (r.head.length : Int) ≤ offset + buf.length)
    (hlt : offset < r.contentSize)
    (hok : c.newRequestOk = true)
    (hf : c.fetch offset (offset + buf.length - 1) = .resp s body?)
    (hst : Int.tdiv s 100 ≠ 2) :
    read r buf offset c =
      some ⟨0, some (.badStatus s), buf, [(offset, offset + buf.length - 1)]⟩ := by
  unfold read
  rw [if_neg (not_lt.mpr hmiss), if_neg (not_le.mpr hlt), if_pos hok, hf]
  dsimp only
  rw [if_pos hst]

/-- Branch lemma: a 2xx response whose body cannot be read fails with the
body-read error and zero bytes read. -/
theorem read_bodyErr (r : Reader) (buf : List Nat) (offset : Int)
    (c : HttpClient) (s : Int)
    (hmiss : (r.head.length : Int) ≤ offset + buf.length)
    (hlt : offset < r.contentSize)
    (hok : c.newRequestOk = true)
    (hf : c.fetch offset (offset + buf.length - 1) = .resp s none)
    (hst : Int.tdiv s 100 = 2) :
    read r buf offset c =
      some ⟨0, some .bodyErr, buf, [(offset, offset + buf.length - 1)]⟩ := by
  unfold read
  rw [if_neg (not_lt.mpr hmiss), if_neg (not_le.mpr hlt), if_pos hok, hf]
  dsimp only
  rw [if_neg (not_not_intro hst)]

/-- Claim C1.  As stated the claim is false: a prefetch-covered request at a
negative offset (possible through `ReadAt`) panics on the Go slice
`r.head[offset:end]` instead of copying and returning `len(buffer)` with no
error.  Here `len(head) = 2 > -1 + 1`, yet the read crashes. -/
theorem C1_counterexample :
    ((rC1.head.length : Int) > (-1 : Int) + (([0] : List Nat).length : Int)) ∧
    read rC1 [0] (-1) cAny = none ∧
    ReadAt rC1 [0] (-1) cAny = none := by
  refine ⟨by decide, by decide, ?_⟩
  rfl

/-- Claim C1 (amended): for every reader state and every read request at a
NONNEGATIVE offset, if `len(prefetchBuffer) > offset + len(buffer)` then the
read copies `prefetchBuffer[offset, offset+len(buffer))` into the caller's
buffer, returns `len(buffer)` with no error, and performs no network call
(the recorded call list is empty and the result does not depend on the
client `c`). -/
theorem C1_amended (r : Reader) (buf : List Nat) (offset : Int) (c : HttpClient)
    (h0 : 0 ≤ offset)
    (hcov : (r.head.length : Int) > offset + buf.length) :
    read r buf offset c =
      some ⟨buf.length, none, (r.head.drop offset.toNat).take buf.length, []⟩ ∧
    ReadAt r buf offset c =
      some (⟨buf.length, none, (r.head.drop offset.toNat).take buf.length, []⟩, r) := by
  have h := read_hit r buf offset c h0 hcov
  refine ⟨h, ?_⟩
  unfold ReadAt
  rw [h]

/-- Witness for C1 (amended) at a concrete covered request. -/
theorem C1_witness :
    read rC1 [0] 0 cAny = some ⟨1, none, [0], []⟩ ∧
    ReadAt rC1 [0] 0 cAny = some (⟨1, none, [0], []⟩, rC1) :=
  C1_amended rC1 [0] 0 cAny (by decide) (by decide)

/-- Claim C2.  As stated the claim is false: the prefetch-hit check runs
before the end-of-stream check, and `NewReader` can build a prefetch buffer
longer than `totalSize` (the C3 bug), after which a read that starts at or
past `totalSize` can still succeed from the prefetch buffer.  The state
`rBug` is reachable: `Open("u", 100)` against a 5-byte resource whose server
answers the ranged GET with a 5-byte 206 body; `ReadAt` at offset
`50 ≥ totalSize = 5` then returns 1 byte with no error. -/
theorem C2_counterexample :
    NewReader "u" 100 cBug = some (.ok rBug) ∧
    rBug.contentSize ≤ 50 ∧
    ReadAt rBug [0] 50 cBug = some (⟨1, none, [0], []⟩, rBug) := by
  refine ⟨?_, by decide, ?_⟩ <;> rfl

/-- Claim C2 (amended): for every reader state and every read request, if
`offset ≥ totalSize` AND the prefetch buffer does not cover the target
interval (`len(prefetchBuffer) ≤ offset + len(buffer)`), the operation fails
with `EndOfStream`, reads zero bytes, leaves the buffer untouched, and makes
no network call. -/
theorem C2_amended (r : Reader) (buf : List Nat) (offset : Int) (c : HttpClient)
    (hmiss : (r.head.length : Int) ≤ offset + buf.length)
    (hend : r.contentSize ≤ offset) :
    read r buf offset c = some ⟨0, some .eof, buf, []⟩ ∧
    ReadAt r buf offset c = some (⟨0, some .eof, buf, []⟩, r) := by
  have h := read_eof r buf offset c hmiss hend
  refine ⟨h, ?_⟩
  unfold ReadAt
  rw [h]

/-- Witness for C2 (amended) at a concrete past-end request. -/
theorem C2_witness :
    read rW [0] 0 cAny = some ⟨0, some .eof, [0], []⟩ ∧
    ReadAt rW [0] 0 cAny = some (⟨0, some .eof, [0], []⟩, rW) :=
  C2_amended rW [0] 0 cAny (by decide) (by decide)

/-- Claim C3: the claim (and the spec's invariant `len(prefetchBuffer) <=
totalSize`) is right about the intent and the code is wrong.  The guard
`if len(head) > total { head = head[:total] }` in `NewReader` is meant to
keep only the bytes actually returned, but `read` returns `n = len(buf)`
even when the response body is shorter (it discards the result of
`copy(buf, body)`), so the guard never fires: against a 5-byte resource,
`NewReader` with prefetch 100 stores a 100-byte, zero-padded prefetch
buffer, violating `len(prefetchBuffer) <= totalSize`. -/
theorem C3_code_bug :
    NewReader "u" 100 cBug = some (.ok rBug) ∧
    rBug.head.length = 100 ∧
    rBug.contentSize = 5 ∧
    ¬ ((rBug.head.length : Int) ≤ rBug.contentSize) := by
  refine ⟨?_, by decide, by decide, by decide⟩
  rfl

/-- Claim C4: whenever `Read` returns `(n, err)`, the new cursor is exactly
the previous cursor plus `n` (including `n = 0` error returns, where the
cursor is unchanged). -/
theorem C4_cursor_advance (r : Reader) (buf : List Nat) (c : HttpClient)
    (ret : ReadRet) (r' : Reader)
    (h : Read r buf c = some (ret, r')) :
    r'.offset = r.offset + (ret.n : Int) := by
  unfold Read at h
  cases hr : read r buf r.offset c with
  | none => rw [hr] at h; exact absurd h (by simp)
  | some ret0 =>
    rw [hr] at h
    simp only [Option.some.injEq, Prod.mk.injEq] at h
    obtain ⟨h1, h2⟩ := h
    subst h1
    subst h2
    rfl

/-- Witness for C4 at a concrete erroring read: `n = 0`, cursor unchanged. -/
theorem C4_witness :
    Read rW [0] cAny = some (retW, rW) ∧
    rW.offset = rW.offset + (retW.n : Int) :=
  ⟨by rfl, C4_cursor_advance rW [0] cAny retW rW (by rfl)⟩

/-- Claim C5: `Seek` sets the cursor to `offset` from start, `cursor +
offset` from current, `totalSize - offset` from end, returning the new
cursor with no error, and fails with the unsupported-mode error for any
other whence, leaving the reader unchanged.  `Seek` takes no `HttpClient`,
so it can perform no network I/O. -/
theorem C5_seek (r : Reader) (offset : Int) (whence : Int) :
    Seek r offset SeekStart = ((offset, none), { r with offset := offset }) ∧
    Seek r offset SeekCurrent =
      ((r.offset + offset, none), { r with offset := r.offset + offset }) ∧
    Seek r offset SeekEnd =
      ((r.contentSize - offset, none), { r with offset := r.contentSize - offset }) ∧
    (whence ≠ SeekStart → whence ≠ SeekCurrent → whence ≠ SeekEnd →
      Seek r offset whence = ((0, some (.unsupported whence)), r)) := by
  refine ⟨by rfl, by rfl, by rfl, fun h0 h1 h2 => ?_⟩
  unfold Seek
  rw [if_neg h0, if_neg h1, if_neg h2]

/-- Witness for C5 at the unsupported whence 7. -/
theorem C5_witness :
    Seek rW 3 7 = ((0, some (.unsupported 7)), rW) :=
  (C5_seek rW 3 7).2.2.2 (by decide) (by decide) (by decide)

/-- Claim C6: `ReadAt` leaves the reader's entire state unchanged (whenever
it returns, the returned reader is the input reader, so `resourceLocator`,
`totalSize`, `prefetchBuffer` and the cursor are all untouched), and its
result does not depend on the current cursor value (replacing the cursor by
any `x` changes nothing). -/
theorem C6_readAt_frame (r : Reader) (buf : List Nat) (offset : Int)
    (c : HttpClient) :
    (∀ ret r', ReadAt r buf offset c = some (ret, r') → r' = r) ∧
    (∀ x : Int, read { r with offset := x } buf offset c = read r buf offset c) ∧
    (∀ x : Int, (ReadAt { r with offset := x } buf offset c).map Prod.fst =
      (ReadAt r buf offset c).map Prod.fst) := by
  refine ⟨?_, fun x => rfl, ?_⟩
  · intro ret r' h
    unfold ReadAt at h
    cases hr : read r buf offset c with
    | none => rw [hr] at h; exact absurd h (by simp)
    | some ret0 =>
      rw [hr] at h
      simp only [Option.some.injEq, Prod.mk.injEq] at h
      exact h.2.symm
  · intro x
    unfold ReadAt
    have he : read { r with offset := x } buf offset c = read r buf offset c := rfl
    rw [he]
    cases read r buf offset c <;> rfl

/-- Witness for C6 at a concrete `ReadAt`. -/
theorem C6_witness :
    ReadAt rW [0] 0 cAny = some (retW, rW) ∧ rW = rW :=
  ⟨by rfl, (C6_readAt_frame rW [0] 0 cAny).1 retW rW (by rfl)⟩

/-- Claim C7: when the metadata probe succeeds but the internal prefetch read
fails with any error, `NewReader` still returns a constructed reader with
cursor 0 and an empty prefetch buffer and does not return the prefetch
error; and construction returns an error only when the metadata probe does
(and it never panics). -/
theorem C7_open_error_policy (url : String) (c : HttpClient) (p sz : Int)
    (ret : ReadRet) (rr : Reader)
    (hp : 0 < p) (hsz : size c = .ok sz)
    (hread : ReadAt ⟨url, 0, sz, []⟩ (List.replicate p.toNat 0) 0 c = some (ret, rr))
    (herr : ret.err.isSome = true) :
    NewReader url p c = some (.ok ⟨url, 0, sz, []⟩) ∧
    (∀ (u' : String) (q : Int) (c' : HttpClient) (e : Err),
      NewReader u' q c' = some (.error e) → size c' = .error e) ∧
    (∀ (u' : String) (q : Int) (c' : HttpClient), NewReader u' q c' ≠ none) := by
  refine ⟨?_, ?_, ?_⟩
  · unfold NewReader
    rw [hsz]
    dsimp only
    rw [if_pos hp, hread]
    dsimp only
    rw [if_pos herr]
    simp
  · intro u' q c' e h
    unfold NewReader at h
    cases hs : size c' with
    | error e0 =>
      rw [hs] at h
      simp only [Option.some.injEq, Except.error.injEq] at h
      subst h
      rfl
    | ok sz0 =>
      rw [hs] at h
      dsimp only at h
      split at h
      · cases hra : ReadAt ⟨u', 0, sz0, []⟩ (List.replicate q.toNat 0) 0 c' with
        | none => rw [hra] at h; exact absurd h (by simp)
        | some pr =>
          obtain ⟨ret0, rr0⟩ := pr
          rw [hra] at h
          simp at h
      · simp at h
  · intro u' q c'
    unfold NewReader
    cases hs : size c' with
    | error e0 => simp
    | ok sz0 =>
      dsimp only
      split
      · cases hra : ReadAt ⟨u', 0, sz0, []⟩ (List.replicate q.toNat 0) 0 c' with
        | none =>
          exfalso
          unfold ReadAt at hra
          cases hr : read ⟨u', 0, sz0, []⟩ (List.replicate q.toNat 0) 0 c' with
          | none => exact read_ne_none_of_nonneg _ _ _ _ le_rfl hr
          | some ret0 => rw [hr] at hra; exact absurd hra (by simp)
        | some pr =>
          obtain ⟨ret0, rr0⟩ := pr
          simp
      · simp

/-- Witness for C7: HEAD says 10 bytes, the prefetch ranged GET fails at the
transport level, and the reader is still constructed with an empty head. -/
theorem C7_witness :
    NewReader "u" 4 c7c = some (.ok r7) :=
  (C7_open_error_policy "u" c7c 4 10 ret7 r7 (by decide) (by rfl) (by rfl)
    (by rfl)).1

/-- Claim C8: for a non-empty buffer, whenever the positional fetch returns,
it never reports a partial byte count: either `n = 0` with an error, or
`n = len(buffer)` with no error.  Moreover on the network-success path the
returned count is `len(buffer)` even when the 2xx body is shorter, and the
bytes of the caller's buffer past the body length are left unmodified. -/
theorem C8_all_or_nothing (r : Reader) (buf : List Nat) (offset : Int)
    (c : HttpClient) (ret : ReadRet)
    (hbuf : buf ≠ []) (h : read r buf offset c = some ret) :
    ((ret.n = 0 ∧ ret.err.isSome = true) ∨
      (ret.n = buf.length ∧ ret.err = none)) ∧
    (∀ (s : Int) (body : List Nat),
      (r.head.length : Int) ≤ offset + buf.length →
      offset < r.contentSize →
      c.newRequestOk = true →
      c.fetch offset (offset + buf.length - 1) = .resp s (some body) →
      Int.tdiv s 100 = 2 →
      ret.buf = goCopy buf body ∧ ret.n = buf.length ∧ ret.err = none ∧
      ret.buf.drop body.length = buf.drop body.length) := by
  by_cases hcov : offset + (buf.length : Int) < r.head.length
  · by_cases hneg : offset < 0
    · rw [read_panic r buf offset c hneg hcov] at h
      exact absurd h (by simp)
    · rw [read_hit r buf offset c (not_lt.mp hneg) hcov] at h
      injection h with h'
      subst h'
      exact ⟨Or.inr ⟨rfl, rfl⟩,
        fun s body hmiss _ _ _ _ => absurd hcov (not_lt.mpr hmiss)⟩
  · have hmiss : (r.head.length : Int) ≤ offset + buf.length := not_lt.mp hcov
    by_cases hend : r.contentSize ≤ offset
    · rw [read_eof r buf offset c hmiss hend] at h
      injection h with h'
      subst h'
      exact ⟨Or.inl ⟨rfl, rfl⟩,
        fun s body _ hlt _ _ _ => absurd hend (not_le.mpr hlt)⟩
    · have hlt : offset < r.contentSize := not_le.mp hend
      by_cases hok : c.newRequestOk = true
      · cases hf : c.fetch offset (offset + (buf.length : Int) - 1) with
        | doError =>
          rw [read_doError r buf offset c hmiss hlt hok hf] at h
          injection h with h'
          subst h'
          refine ⟨Or.inl ⟨rfl, rfl⟩, fun s body _ _ _ hfetch _ => ?_⟩
          exact FetchOutcome.noConfusion hfetch
        | resp s0 body?0 =>
          by_cases hst0 : Int.tdiv s0 100 = 2
          · cases body?0 with
            | none =>
              rw [read_bodyErr r buf offset c s0 hmiss hlt hok hf hst0] at h
              injection h with h'
              subst h'
              refine ⟨Or.inl ⟨rfl, rfl⟩, fun s body _ _ _ hfetch _ => ?_⟩
              injection hfetch with _ hb
              exact Option.noConfusion hb
            | some body0 =>
              rw [read_success r buf offset c s0 body0 hmiss hlt hok hf hst0 hbuf]
                at h
              injection h with h'
              subst h'
              refine ⟨Or.inr ⟨rfl, rfl⟩, fun s body _ _ _ hfetch _ => ?_⟩
              injection hfetch with hs hb
              injection hb with hb'
              subst hb'
              exact ⟨rfl, rfl, rfl, goCopy_drop buf _⟩
          · rw [read_badStatus r buf offset c s0 body?0 hmiss hlt hok hf hst0] at h
            injection h with h'
            subst h'
            refine ⟨Or.inl ⟨rfl, rfl⟩, fun s body _ _ _ hfetch hst => ?_⟩
            injection hfetch with hs _
            subst hs
            exact absurd hst hst0
      · have hok' : c.newRequestOk = false := by
          cases hcb : c.newRequestOk
          · rfl
          · exact absurd hcb hok
        rw [read_reqErr r buf offset c hmiss hlt hok'] at h
        injection h with h'
        subst h'
        exact ⟨Or.inl ⟨rfl, rfl⟩,
          fun s body _ _ hok2 _ _ => absurd hok2 hok⟩

/-- Witness for C8 at a concrete erroring read (EOF, `n = 0`). -/
theorem C8_witness :
    (retW.n = 0 ∧ retW.err.isSome = true) ∨
      (retW.n = ([0] : List Nat).length ∧ retW.err = none) :=
  (C8_all_or_nothing rW [0] 0 cAny retW (by decide) (by rfl)).1

/-- Claim C9.  As stated the claim is false: the zero-length-buffer EOF
check sits after the network round trip, so a zero-length read at an offset
below `totalSize` with an empty prefetch buffer does issue a ranged GET
(here for bytes `[0, -1]`) before reporting EOF. -/
theorem C9_counterexample :
    ReadAt r9 [] 0 cAny = some (⟨0, some .eof, [], [(0, -1)]⟩, r9) ∧
    ([((0 : Int), (-1 : Int))] : List (Int × Int)) ≠ [] := by
  refine ⟨?_, by decide⟩
  rfl

/-- Claim C9 (amended): a zero-length read reports `EndOfStream` with no
network request only when `offset ≥ totalSize` (on a prefetch miss); when
`offset < totalSize` and the prefetch buffer does not cover `offset` the
ranged GET IS issued and EOF is reported only after it succeeds; and on a
prefetch hit (`len(head) > offset ≥ 0`) the zero-length read returns 0 bytes
with no error and no request. -/
theorem C9_amended (r : Reader) (offset : Int) (c : HttpClient) :
    (0 ≤ offset → offset < (r.head.length : Int) →
      read r [] offset c = some ⟨0, none, [], []⟩) ∧
    ((r.head.length : Int) ≤ offset → r.contentSize ≤ offset →
      read r [] offset c = some ⟨0, some .eof, [], []⟩) ∧
    (∀ (s : Int) (body : List Nat),
      (r.head.length : Int) ≤ offset → offset < r.contentSize →
      c.newRequestOk = true →
      c.fetch offset (offset - 1) = .resp s (some body) →
      Int.tdiv s 100 = 2 →
      read r [] offset c = some ⟨0, some .eof, [], [(offset, offset - 1)]⟩) := by
  refine ⟨?_, ?_, ?_⟩
  · intro h0 hcov
    exact read_hit r [] offset c h0
      (by simp only [List.length_nil, Nat.cast_zero, add_zero]; exact hcov)
  · intro hmiss hend
    exact read_eof r [] offset c
      (by simp only [List.length_nil, Nat.cast_zero, add_zero]; exact hmiss) hend
  · intro s body hmiss hlt hok hfetch hst
    exact read_success_nil r offset c s body hmiss hlt hok hfetch hst

/-- Witness for C9 (amended) on the network-success conjunct. -/
theorem C9_witness :
    read r9 [] 0 cAny = some ⟨0, some .eof, [], [(0, -1)]⟩ :=
  (C9_amended r9 0 cAny).2.2 200 [] (by decide) (by decide) (by rfl) (by rfl)
    (by decide)

/-- Claim C10.  The clamping-free `Seek` half of the claim is true, but the
"next Read with a negative cursor always returns an error" half is false:
after `Seek(-1, FromStart)` a `Read` against a server that answers the
malformed negative range with a 2xx body succeeds with `n = 2` and no
error. -/
theorem C10_counterexample :
    Seek ⟨"u", 0, 10, []⟩ (-1) SeekStart = (((-1 : Int), none), r10) ∧
    r10.offset < 0 ∧
    Read r10 [0, 0] c10c =
      some (⟨2, none, [5, 6], [(-1, 0)]⟩, ⟨"u", 1, 10, []⟩) := by
  refine ⟨by rfl, by decide, ?_⟩
  rfl

/-- Claim C10 (amended): `Seek` performs no bounds clamping and accepts a
negative or past-end resulting cursor without error; a past-end cursor
(outside prefetch coverage) surfaces as `EndOfStream` on the next `Read`;
but a negative cursor does NOT guarantee a read failure: the next `Read`
succeeds whenever the ranged GET for the negative range returns a readable
2xx body, and it panics when the prefetch-hit branch fires at the negative
offset. -/
theorem C10_amended (r : Reader) (buf : List Nat) (c : HttpClient) :
    (∀ off : Int, Seek r off SeekStart = ((off, none), { r with offset := off })) ∧
    ((r.head.length : Int) ≤ r.offset + buf.length → r.contentSize ≤ r.offset →
      Read r buf c = some (⟨0, some .eof, buf, []⟩, r)) ∧
    (∀ (s : Int) (body : List Nat),
      r.offset < 0 → (r.head.length : Int) ≤ r.offset + buf.length →
      r.offset < r.contentSize → buf ≠ [] → c.newRequestOk = true →
      c.fetch r.offset (r.offset + buf.length - 1) = .resp s (some body) →
      Int.tdiv s 100 = 2 →
      Read r buf c =
        some (⟨buf.length, none, goCopy buf body,
          [(r.offset, r.offset + buf.length - 1)]⟩,
          { r with offset := r.offset + buf.length })) ∧
    (r.offset < 0 → r.offset + (buf.length : Int) < r.head.length →
      Read r buf c = none) := by
  refine ⟨fun off => rfl, ?_, ?_, ?_⟩
  · intro hmiss hend
    unfold Read
    rw [read_eof r buf r.offset c hmiss hend]
    simp
  · intro s body _ hmiss hlt hbuf hok hfetch hst
    unfold Read
    rw [read_success r buf r.offset c s body hmiss hlt hok hfetch hst hbuf]
  · intro hneg hcov
    unfold Read
    rw [read_panic r buf r.offset c hneg hcov]

/-- Witness for C10 (amended) on the panic conjunct: a zero-length `Read`
at cursor -1 under a non-empty prefetch buffer crashes. -/
theorem C10_witness :
    Read r10p [] cAny = none :=
  (C10_amended r10p [] cAny).2.2.2 (by decide) (by decide)

end URS
